import Mathlib

/-!
Verification development for the Passage identity-broker repository.

The definitions below are shallow embeddings of the TypeScript sources:
zod request schemas, the LocalKMS encrypted-value codec, the upstream
OIDC factory/service, and the provider discovery route.  External
library primitives (Node `Buffer` base64, AES-256-GCM, SHA-256) are
modelled either concretely (base64) or as parameters carrying their
documented contract (AEAD, hash).
-/

namespace Passage

/-! ### Base64 codec (model of Node `Buffer.toString('base64')` / `Buffer.from(s, 'base64')`) -/

/-- Standard base64 alphabet, as used by Node buffers. -/
def base64Chars : List Char :=
  "ABCDEFGHIJKLMNOPQRSTUVWXYZabcdefghijklmnopqrstuvwxyz0123456789+/".toList

/-- Character for a sextet value. -/
def b64chr (n : Nat) : Char := base64Chars.getD n '='

/-- Sextet value of a base64 character. -/
def b64val (c : Char) : Nat := base64Chars.indexOf c

/-- Base64-encode a byte list (standard alphabet, with padding). -/
def base64Encode : List Nat → List Char
  | [] => []
  | [a] => [b64chr (a / 4), b64chr (a % 4 * 16), '=', '=']
  | [a, b] => [b64chr (a / 4), b64chr (a % 4 * 16 + b / 16), b64chr (b % 16 * 4), '=']
  | a :: b :: c :: rest =>
      b64chr (a / 4) :: b64chr (a % 4 * 16 + b / 16) :: b64chr (b % 16 * 4 + c / 64) ::
        b64chr (c % 64) :: base64Encode rest

/-- Base64-decode a character list (standard alphabet, padding-aware). -/
def base64Decode : List Char → List Nat
  | w :: x :: y :: z :: rest =>
      if y = '=' then
        [b64val w * 4 + b64val x / 16]
      else if z = '=' then
        [b64val w * 4 + b64val x / 16, b64val x % 16 * 16 + b64val y / 4]
      else
        (b64val w * 4 + b64val x / 16) :: (b64val x % 16 * 16 + b64val y / 4) ::
          (b64val y % 4 * 64 + b64val z) :: base64Decode rest
  | _ => []

/-! ### Base64url (RFC 7636 / openid-client PKCE challenge encoding, unpadded) -/

/-- URL-safe base64 alphabet. -/
def base64UrlChars : List Char :=
  "ABCDEFGHIJKLMNOPQRSTUVWXYZabcdefghijklmnopqrstuvwxyz0123456789-_".toList

/-- Character for a sextet value, URL-safe alphabet. -/
def b64uchr (n : Nat) : Char := base64UrlChars.getD n 'A'

/-- Base64url-encode a byte list without padding, as RFC 7636 prescribes
for PKCE code challenges. -/
def base64UrlEncode : List Nat → List Char
  | [] => []
  | [a] => [b64uchr (a / 4), b64uchr (a % 4 * 16)]
  | [a, b] => [b64uchr (a / 4), b64uchr (a % 4 * 16 + b / 16), b64uchr (b % 16 * 4)]
  | a :: b :: c :: rest =>
      b64uchr (a / 4) :: b64uchr (a % 4 * 16 + b / 16) :: b64uchr (b % 16 * 4 + c / 64) ::
        b64uchr (c % 64) :: base64UrlEncode rest

/-- Model of openid-client's calculatePKCECodeChallenge: the base64url
encoding (unpadded) of the SHA-256 digest of the verifier.  The hash
primitive is external, so it is a parameter. -/
def calculatePKCECodeChallenge (sha256 : String → List Nat) (verifier : String) : String :=
  String.mk (base64UrlEncode (sha256 verifier))

/-! ### JavaScript truthiness and the zod URL check -/

/-- Truthiness of an optional string in JavaScript: present and non-empty. -/
def jsTruthy : Option String → Bool
  | some s => s != ""
  | none => false

/-- Split a character list at the first scheme separator, returning the
characters before and after it. -/
def schemeSplit : List Char → Option (List Char × List Char)
  | ':' :: '/' :: '/' :: rest => some ([], rest)
  | c :: rest =>
      match schemeSplit rest with
      | some (pre, post) => some (c :: pre, post)
      | none => none
  | [] => none

/-- Model of zod's z.string().url() check: a non-empty scheme, the literal
separator, and a non-empty remainder. -/
def isValidUrl (s : String) : Bool :=
  match schemeSplit s.toList with
  | some (pre, post) => !pre.isEmpty && !post.isEmpty
  | none => false

/-! ### Zod schema embeddings (src OIDC schemas file)

`AuthorizationRequestSchema` and `LogoutRequestSchema`: the base object
checks followed by the chained refinements, exactly as in the source. -/

/-- Values of ResponseTypeSchema. -/
def responseTypeValues : List String :=
  ["code", "token", "id_token", "code id_token", "code token", "id_token token",
   "code id_token token"]

/-- Values of CodeChallengeMethodSchema. -/
def codeChallengeMethodValues : List String := ["plain", "S256"]

/-- Values of ResponseModeSchema. -/
def responseModeValues : List String := ["query", "fragment", "form_post"]

/-- Values of PromptSchema. -/
def promptValues : List String := ["none", "login", "consent", "select_account"]

/-- An optional field validated against an enum (absent fields pass). -/
def optEnum (allowed : List String) : Option String → Bool
  | none => true
  | some s => allowed.contains s

/-- Split a character list on a separator character, as JavaScript
String.split with a one-character separator. -/
def splitChar (sep : Char) : List Char → List (List Char)
  | [] => [[]]
  | c :: rest =>
      match splitChar sep rest with
      | t :: ts => if c = sep then [] :: t :: ts else (c :: t) :: ts
      | [] => [[c]]

/-- The scope refinement: scope.split(' ') must include openid. -/
def scopeHasOpenid (scope : String) : Bool :=
  (splitChar ' ' scope.toList).contains "openid".toList

/-- Input record for AuthorizationRequestSchema (free-form optional string
fields that no check constrains are omitted). -/
structure AuthorizationRequest where
  response_type : String
  client_id : String
  redirect_uri : String
  scope : String
  state : Option String := none
  nonce : Option String := none
  code_challenge : Option String := none
  code_challenge_method : Option String := none
  response_mode : Option String := none
  prompt : Option String := none
  max_age : Option Int := none

/-- Object-level checks of AuthorizationRequestSchema, before refinements. -/
def authRequestBase (r : AuthorizationRequest) : Bool :=
  responseTypeValues.contains r.response_type &&
  r.client_id != "" &&
  isValidUrl r.redirect_uri &&
  r.scope != "" && scopeHasOpenid r.scope &&
  optEnum codeChallengeMethodValues r.code_challenge_method &&
  optEnum responseModeValues r.response_mode &&
  optEnum promptValues r.prompt &&
  (match r.max_age with
   | none => true
   | some n => decide (0 ≤ n))

/-- First refinement: when code_challenge is (truthily) present,
code_challenge_method must be present. -/
def authRequestRefinePkcePresence (r : AuthorizationRequest) : Bool :=
  !(jsTruthy r.code_challenge && r.code_challenge_method.isNone)

/-- Second refinement: an S256 code_challenge must be 43 characters. -/
def authRequestRefineS256Length (r : AuthorizationRequest) : Bool :=
  if r.code_challenge_method == some "S256" && jsTruthy r.code_challenge then
    match r.code_challenge with
    | some c => c.length == 43
    | none => true
  else true

/-- Full AuthorizationRequestSchema validation: base object checks plus
both chained refinements. -/
def validateAuthorizationRequest (r : AuthorizationRequest) : Bool :=
  authRequestBase r && authRequestRefinePkcePresence r && authRequestRefineS256Length r

/-- Input record for LogoutRequestSchema. -/
structure LogoutRequest where
  id_token_hint : Option String := none
  post_logout_redirect_uri : Option String := none
  state : Option String := none
  client_id : Option String := none

/-- Object-level checks of LogoutRequestSchema: the redirect URI, when
present, must be a URL; the remaining fields are unconstrained strings. -/
def logoutRequestBase (r : LogoutRequest) : Bool :=
  match r.post_logout_redirect_uri with
  | none => true
  | some u => isValidUrl u

/-- Refinement: post_logout_redirect_uri requires id_token_hint. -/
def logoutRequestRefine (r : LogoutRequest) : Bool :=
  !(jsTruthy r.post_logout_redirect_uri && !jsTruthy r.id_token_hint)

/-- Full LogoutRequestSchema validation. -/
def validateLogoutRequest (r : LogoutRequest) : Bool :=
  logoutRequestBase r && logoutRequestRefine r

/-! ### LocalKMS encrypted-value codec (src kms-local service)

Byte strings are lists of naturals below 256.  The AES-256-GCM primitive
is external (Node crypto), so it enters as a structure carrying its
documented contract; the serialization format base64(iv ++ authTag ++
ciphertext) and its parsing are embedded concretely. -/

/-- Encrypted value components: 16-byte iv, 16-byte auth tag, ciphertext. -/
structure EncryptedData where
  iv : List Nat
  authTag : List Nat
  ciphertext : List Nat
deriving DecidableEq

/-- Serialize encrypted data: base64 of iv, auth tag and ciphertext
concatenated. -/
def serializeEncryptedData (d : EncryptedData) : String :=
  String.mk (base64Encode (d.iv ++ d.authTag ++ d.ciphertext))

/-- Deserialize a base64 string back to encrypted data components:
first 16 bytes iv, next 16 auth tag, rest ciphertext; fails when the
decoded buffer is shorter than 32 bytes. -/
def deserializeEncryptedData (s : String) : Except String EncryptedData :=
  let combined := base64Decode s.toList
  if combined.length < 16 + 16 then
    .error "Invalid encrypted data: too short"
  else
    .ok { iv := combined.take 16
          authTag := (combined.drop 16).take 16
          ciphertext := combined.drop 32 }

/-- Contract of the external AES-256-GCM primitive with a 16-byte auth
tag: enc maps key, iv and plaintext to ciphertext and tag; dec inverts
it; ciphertext and tag are byte strings. -/
structure AeadGcm where
  enc : List Nat → List Nat → String → List Nat × List Nat
  dec : List Nat → List Nat → List Nat → List Nat → Except String String
  dec_enc : ∀ k iv p, dec k iv (enc k iv p).1 (enc k iv p).2 = .ok p
  tagLen : ∀ k iv p, (enc k iv p).2.length = 16
  ctBytes : ∀ k iv p, ∀ x ∈ (enc k iv p).1, x < 256
  tagBytes : ∀ k iv p, ∀ x ∈ (enc k iv p).2, x < 256

/-- LocalKMS.encrypt: with the master key loaded, encrypt the plaintext
under a fresh iv (passed explicitly here, as randomness is external) and
package iv, auth tag and ciphertext. -/
def LocalKMS.encrypt (G : AeadGcm) (masterKey : Option (List Nat)) (iv : List Nat)
    (plaintext : String) : Except String EncryptedData :=
  match masterKey with
  | none => .error "Master key not loaded"
  | some k =>
      let r := G.enc k iv plaintext
      .ok { iv := iv, authTag := r.2, ciphertext := r.1 }

/-- LocalKMS.decrypt: with the master key loaded, decrypt the components
(authentication failure surfaces as an error from the primitive). -/
def LocalKMS.decrypt (G : AeadGcm) (masterKey : Option (List Nat))
    (d : EncryptedData) : Except String String :=
  match masterKey with
  | none => .error "Master key not loaded"
  | some k => G.dec k d.iv d.ciphertext d.authTag

/-! ### Upstream OIDC registry (src upstream oidc-client service / factory) -/

/-- The slice of an upstream discovery document the routes consume
(openid-client's serverMetadata). -/
structure AuthorizationServerMetadata where
  issuer : String
  authorization_endpoint : String := ""
  token_endpoint : String := ""
deriving DecidableEq

/-- openid-client Configuration: issuer metadata plus client credentials. -/
structure ClientConfig where
  serverMetadata : AuthorizationServerMetadata
  clientId : String
  clientSecret : Option String := none
deriving DecidableEq

/-- OidcConfig block of a provider entry (config schema). -/
structure OidcProviderConfig where
  supported_auth_flows : List String := []
  upstream_issuer : Option String := none
  upstream_client_id : Option String := none
  upstream_client_secret_ref : Option String := none
deriving DecidableEq

/-- Provider entry from the providers configuration (name, protocol,
ServerConfig.endpoint_url, optional OidcConfig). -/
structure ProviderEntry where
  name : String
  auth_protocol : String
  endpoint_url : String
  OidcConfig : Option OidcProviderConfig := none
deriving DecidableEq

/-- LocalKMS secret-resolver state: initialization flag and the
decrypted in-memory secret map. -/
structure KmsState where
  initialized : Bool
  secrets : List (String × String)

/-- LocalKMS.getSecret: throws when uninitialized, otherwise looks the
name up in the in-memory map. -/
def KmsState.getSecret (kms : KmsState) (nm : String) : Except String (Option String) :=
  if kms.initialized then .ok (kms.secrets.lookup nm)
  else .error "LocalKMS not initialized. Call initialize() first."

/-- Environment of the upstream registry: the secret resolver and the
external discovery fetch (issuer URL, client id, client secret to a
discovery document or a network/parse error). -/
structure UpstreamEnv where
  kms : KmsState
  discovery : String → String → Option String → Except String AuthorizationServerMetadata

/-- Map.set semantics on an association list: replace the entry when the
key exists, else append. -/
def setEntry {α : Type} : List (String × α) → String → α → List (String × α)
  | [], nm, c => [(nm, c)]
  | (k, v) :: rest, nm, c =>
      if k = nm then (nm, c) :: rest else (k, v) :: setEntry rest nm c

namespace UpstreamOidcFactory

/-- registerProvider: require upstream_issuer and upstream_client_id,
resolve the client secret through LocalKMS when a reference is set
(missing secret is an error), then fetch the discovery document and
build the client configuration. -/
def registerProvider (env : UpstreamEnv) (p : ProviderEntry) : Except String ClientConfig :=
  match p.OidcConfig with
  | none => .error ("Provider " ++ p.name ++ " missing upstream_issuer or upstream_client_id")
  | some oc =>
      if !(jsTruthy oc.upstream_issuer && jsTruthy oc.upstream_client_id) then
        .error ("Provider " ++ p.name ++ " missing upstream_issuer or upstream_client_id")
      else
        (if jsTruthy oc.upstream_client_secret_ref then
          (env.kms.getSecret (oc.upstream_client_secret_ref.getD "")).bind (fun sec =>
            if jsTruthy sec then .ok sec
            else .error ("Secret not found: " ++ oc.upstream_client_secret_ref.getD ""))
         else .ok none).bind (fun secret =>
          (env.discovery (oc.upstream_issuer.getD "") (oc.upstream_client_id.getD "") secret).map
            (fun md => { serverMetadata := md
                         clientId := oc.upstream_client_id.getD ""
                         clientSecret := secret }))

/-- Registry state: provider-name-keyed configurations and the
initialization flag. -/
structure FactoryState where
  configs : List (String × ClientConfig)
  initialized : Bool

/-- Filter applied before registration: oidc protocol and a truthy
OidcConfig.upstream_issuer. -/
def oidcFilter (p : ProviderEntry) : Bool :=
  p.auth_protocol == "oidc" && jsTruthy (p.OidcConfig.bind (fun oc => oc.upstream_issuer))

/-- The registration loop: try each provider, store successes, log and
skip failures. -/
def registerLoop (env : UpstreamEnv) (ps : List ProviderEntry)
    (configs : List (String × ClientConfig)) : List (String × ClientConfig) :=
  ps.foldl (fun acc p =>
    match registerProvider env p with
    | .ok c => setEntry acc p.name c
    | .error _ => acc) configs

/-- The factory's startup entry point (source method `initialize`):
no-op when already initialized; an error before touching any state when
LocalKMS is not ready; otherwise run the registration loop over the
filtered providers and mark the factory initialized.  The returned pair
is the thrown-or-ok outcome together with the post-call object state. -/
def initFactory (env : UpstreamEnv) (providers : List ProviderEntry)
    (st : FactoryState) : Except String Unit × FactoryState :=
  if st.initialized then (.ok (), st)
  else if !env.kms.initialized then
    (.error "LocalKMS must be initialized before UpstreamOidcFactory", st)
  else
    (.ok (), { configs := registerLoop env (providers.filter oidcFilter) st.configs
               initialized := true })

/-- getConfig: throws when the factory is uninitialized or the provider
is unknown, else returns the stored configuration. -/
def getConfig (st : FactoryState) (providerName : String) : Except String ClientConfig :=
  if !st.initialized then
    .error "UpstreamOidcFactory not initialized. Call initialize() first."
  else
    match st.configs.lookup providerName with
    | none => .error ("Unknown provider: " ++ providerName)
    | some c => .ok c

end UpstreamOidcFactory

namespace UpstreamOidcService

export UpstreamOidcFactory (FactoryState)

/-- getConfig of the service variant: throws when uninitialized,
otherwise returns the map entry, which is undefined (none) for an
unregistered provider name. -/
def getConfig (st : UpstreamOidcFactory.FactoryState) (providerName : String) :
    Except String (Option ClientConfig) :=
  if !st.initialized then
    .error "UpstreamOidcService not initialized. Call initialize() first."
  else
    .ok (st.configs.lookup providerName)

/-- Options of buildAuthorizationUrl. -/
structure AuthUrlOptions where
  scope : Option String := none
  state : Option String := none
  nonce : Option String := none
  codeVerifier : Option String := none

/-- The authorization URL the external client library assembles: the
upstream authorization endpoint together with the query parameters. -/
structure AuthorizationUrl where
  endpoint : String
  params : List (String × String)
deriving DecidableEq

/-- A query parameter added only when the option is truthy. -/
def optParam (key : String) : Option String → List (String × String)
  | some s => if s == "" then [] else [(key, s)]
  | none => []

/-- buildAuthorizationUrl: look up the provider configuration, assemble
redirect_uri, scope (defaulted when falsy) and response_type=code, add
state and nonce when truthy, and, when a PKCE code verifier is supplied,
add the S256-derived code challenge and the method S256. -/
def buildAuthorizationUrl (sha256 : String → List Nat) (st : UpstreamOidcFactory.FactoryState)
    (providerName redirectUri : String) (opts : AuthUrlOptions) :
    Except String AuthorizationUrl :=
  if !st.initialized then
    .error "UpstreamOidcService not initialized. Call initialize() first."
  else
    match st.configs.lookup providerName with
    | none => .error ("Unknown provider: " ++ providerName)
    | some config =>
        let scopeVal :=
          match opts.scope with
          | some s => if s == "" then "openid profile email" else s
          | none => "openid profile email"
        let pkce :=
          match opts.codeVerifier with
          | some v =>
              if v == "" then []
              else [("code_challenge", calculatePKCECodeChallenge sha256 v),
                    ("code_challenge_method", "S256")]
          | none => []
        .ok { endpoint := config.serverMetadata.authorization_endpoint
              params := [("redirect_uri", redirectUri), ("scope", scopeVal),
                         ("response_type", "code")] ++
                        optParam "state" opts.state ++ optParam "nonce" opts.nonce ++ pkce }

end UpstreamOidcService

/-! ### Provider discovery route (src oidc route files) -/

/-- Body of the discovery endpoint response: the metadata JSON on
success, an error JSON on failure. -/
inductive ResponseBody
  | metadata (m : AuthorizationServerMetadata)
  | errorBody (message : String)
deriving DecidableEq

/-- An HTTP response: status code and body. -/
structure HttpResponse where
  status : Nat
  body : ResponseBody
deriving DecidableEq

/-- Base path a provider's routes are mounted under. -/
def providerBasePath (p : ProviderEntry) : String := "/" ++ p.endpoint_url

/-- Handler of GET basePath/.well-known/openid-configuration: fetch the
provider's upstream configuration and return its serverMetadata as JSON,
or a 500 error body when the lookup throws. -/
def discoveryHandler (st : UpstreamOidcFactory.FactoryState) (p : ProviderEntry) : HttpResponse :=
  match UpstreamOidcFactory.getConfig st p.name with
  | .ok config => { status := 200, body := .metadata config.serverMetadata }
  | .error e => { status := 500, body := .errorBody e }

/-! ### Session store authorization codes (spec-modelled) -/

/-- Modelled from the spec: the repository has no Session Store
implementation yet (only the contract in the specification), so the
AuthorizationCode record is built from the spec's data model: subject
claims and upstream tokens bound to the code, creation and expiry times
in Unix seconds, and the consumed flag. -/
structure AuthCodeRecord where
  subjectClaims : List (String × String)
  upstreamTokens : List (String × String)
  createdAt : Nat
  expiresAt : Nat
  consumed : Bool
deriving DecidableEq

/-- Outcome of consuming an authorization code. -/
inductive ConsumeResult
  | success (subjectClaims upstreamTokens : List (String × String))
  | invalidCode
  | expiredCode
  | alreadyConsumed
deriving DecidableEq

/-- Whether a consume outcome is the successful one. -/
def ConsumeResult.isSuccess : ConsumeResult → Bool
  | .success _ _ => true
  | _ => false

/-- Modelled from the spec: the Session Store's code table, keyed by
code value. -/
structure SessionStoreState where
  codes : List (String × AuthCodeRecord)

/-- Modelled from the spec: consumeAuthorizationCode looks the code up
(InvalidCode when absent), fails with AlreadyConsumed when the consumed
flag is set, with ExpiredCode when now is at or past expiry, and
otherwise returns the bound claims and tokens while atomically setting
the consumed flag.  Concurrent attempts are modelled as an arbitrary
sequential interleaving of these atomic steps. -/
def consumeAuthorizationCode (st : SessionStoreState) (now : Nat) (code : String) :
    ConsumeResult × SessionStoreState :=
  match st.codes.lookup code with
  | none => (.invalidCode, st)
  | some r =>
      if r.consumed then (.alreadyConsumed, st)
      else if r.expiresAt ≤ now then (.expiredCode, st)
      else (.success r.subjectClaims r.upstreamTokens,
            { codes := setEntry st.codes code { r with consumed := true } })

/-- Run a sequence of consume operations (timestamp, code value),
counting the successes. -/
def runConsumes (st : SessionStoreState) : List (Nat × String) → Nat × SessionStoreState
  | [] => (0, st)
  | (now, code) :: ops =>
      let step := consumeAuthorizationCode st now code
      let rest := runConsumes step.2 ops
      ((if step.1.isSuccess then 1 else 0) + rest.1, rest.2)

/-! ### A concrete AEAD instance (for evaluating the contract on inputs) -/

/-- Four-byte big-endian encoding of one character's code point. -/
def charBytes (c : Char) : List Nat :=
  [c.toNat / 16777216, c.toNat / 65536 % 256, c.toNat / 256 % 256, c.toNat % 256]

/-- Byte encoding of a character list. -/
def strBytesAux : List Char → List Nat
  | [] => []
  | c :: cs => charBytes c ++ strBytesAux cs

/-- Byte encoding of a string. -/
def strBytes (s : String) : List Nat := strBytesAux s.toList

/-- Inverse of strBytesAux: decode four-byte groups back to characters. -/
def bytesChars : List Nat → List Char
  | b0 :: b1 :: b2 :: b3 :: rest =>
      Char.ofNat (b0 * 16777216 + b1 * 65536 + b2 * 256 + b3) :: bytesChars rest
  | _ => []

/-- Inverse of strBytes. -/
def bytesStr (l : List Nat) : String := String.mk (bytesChars l)

/-- A concrete cipher satisfying the AeadGcm contract: the ciphertext is
the byte encoding of the plaintext and the tag is sixteen zero bytes. -/
def trivialAead : AeadGcm where
  enc := fun _ _ p => (strBytes p, List.replicate 16 0)
  dec := fun _ _ ct _ => .ok (bytesStr ct)
  dec_enc := by
    intro k iv p
    have h : ∀ l : List Char, bytesChars (strBytesAux l) = l := by
      intro l
      induction l with
      | nil => rfl
      | cons c cs ih =>
          have hc : c.toNat / 16777216 * 16777216 + c.toNat / 65536 % 256 * 65536 +
              c.toNat / 256 % 256 * 256 + c.toNat % 256 = c.toNat := by omega
          simp only [strBytesAux, charBytes, List.cons_append, List.nil_append, bytesChars]
          rw [hc, Char.ofNat_toNat]
          simpa using ih
    simp [bytesStr, strBytes, h]
  tagLen := by intro k iv p; simp
  ctBytes := by
    intro k iv p
    have h : ∀ l : List Char, ∀ x ∈ strBytesAux l, x < 256 := by
      intro l
      induction l with
      | nil => simp [strBytesAux]
      | cons c cs ih =>
          intro x hx
          have hb : c.toNat < 4294967296 := by
            have h32 := c.val.toNat_lt
            simp only [Char.toNat]
            omega
          simp only [strBytesAux, charBytes, List.cons_append, List.nil_append,
            List.mem_cons, List.mem_append] at hx
          rcases hx with h1 | h1 | h1 | h1 | h1
          · omega
          · omega
          · omega
          · omega
          · exact ih x h1
    exact h p.toList
  tagBytes := by
    intro k iv p x hx
    have := List.eq_of_mem_replicate hx
    omega

/-! ### Sample data used when evaluating the theorems on concrete inputs -/

/-- Upstream discovery metadata of the sample acme provider. -/
def acmeUpstreamMetadata : AuthorizationServerMetadata :=
  { issuer := "http://idp.test"
    authorization_endpoint := "http://idp.test/authorize"
    token_endpoint := "http://idp.test/token" }

/-- Registered client configuration of the sample acme provider. -/
def acmeConfig : ClientConfig :=
  { serverMetadata := acmeUpstreamMetadata, clientId := "c1" }

/-- The sample acme provider entry, mounted at endpoint path acme. -/
def acmeProvider : ProviderEntry :=
  { name := "acme", auth_protocol := "oidc", endpoint_url := "acme"
    OidcConfig := some { upstream_issuer := some "http://idp.test"
                         upstream_client_id := some "c1"
                         upstream_client_secret_ref := some "acme-secret" } }

/-- A second sample provider whose secret reference is not in the KMS. -/
def brokenProvider : ProviderEntry :=
  { name := "broken", auth_protocol := "oidc", endpoint_url := "broken"
    OidcConfig := some { upstream_issuer := some "http://idp2.test"
                         upstream_client_id := some "c2"
                         upstream_client_secret_ref := some "missing-secret" } }

/-- Sample registry environment: an initialized KMS holding the acme
secret, and a discovery fetch that succeeds for the acme issuer. -/
def sampleEnv : UpstreamEnv :=
  { kms := { initialized := true, secrets := [("acme-secret", "s3cr3t")] }
    discovery := fun issuer _ _ =>
      if issuer == "http://idp.test" then .ok acmeUpstreamMetadata
      else .error "fetch failed" }

/-- The same environment with the KMS not yet initialized. -/
def sampleEnvNoKms : UpstreamEnv :=
  { kms := { initialized := false, secrets := [] }
    discovery := sampleEnv.discovery }

/-- A factory state holding the registered acme provider. -/
def sampleFactoryState : UpstreamOidcFactory.FactoryState :=
  { configs := [("acme", acmeConfig)], initialized := true }

/-- The empty, uninitialized factory state. -/
def emptyFactoryState : UpstreamOidcFactory.FactoryState :=
  { configs := [], initialized := false }

/-- A session-store state holding one fresh authorization code. -/
def sampleCodeStore : SessionStoreState :=
  { codes := [("code-1",
      { subjectClaims := [("sub", "alice")]
        upstreamTokens := [("access_token", "at-1")]
        createdAt := 0, expiresAt := 60, consumed := false })] }

/-- An authorization request supplying code_challenge_method without any
code_challenge; all base fields are valid. -/
def c6Request : AuthorizationRequest :=
  { response_type := "code", client_id := "c1", redirect_uri := "https://app.test/cb"
    scope := "openid", code_challenge_method := some "S256" }

/-- An authorization request supplying code_challenge without any
code_challenge_method. -/
def c6NoMethodRequest : AuthorizationRequest :=
  { response_type := "code", client_id := "c1", redirect_uri := "https://app.test/cb"
    scope := "openid", code_challenge := some "abc" }

/-- A valid request carrying a 43-character S256 challenge. -/
def sampleS256Request : AuthorizationRequest :=
  { response_type := "code", client_id := "c1", redirect_uri := "https://app.test/cb"
    scope := "openid profile"
    code_challenge := some "E9Melhoa2OwvFrEMTJguCHaoeK1t8URWbuGJSstw-cM"
    code_challenge_method := some "S256" }

/-- A valid request carrying a short plain challenge. -/
def samplePlainRequest : AuthorizationRequest :=
  { response_type := "code", client_id := "c1", redirect_uri := "https://app.test/cb"
    scope := "openid", code_challenge := some "abc"
    code_challenge_method := some "plain" }

/-- A stand-in hash for evaluating the PKCE challenge construction. -/
def sampleSha (_ : String) : List Nat := List.replicate 32 0

/-- A concrete encrypted value with 16-byte iv and auth tag. -/
def sampleEncrypted : EncryptedData :=
  { iv := List.replicate 16 1, authTag := List.replicate 16 2, ciphertext := [3, 4, 5] }

/-! ### Base64 codec lemmas -/

theorem b64val_b64chr : ∀ n < 64, b64val (b64chr n) = n := by decide

theorem b64chr_ne_pad : ∀ n < 64, b64chr n ≠ '=' := by decide

/-- Decoding inverts encoding on byte lists. -/
theorem base64Decode_base64Encode (l : List Nat) (h : ∀ x ∈ l, x < 256) :
    base64Decode (base64Encode l) = l := by
  induction l using base64Encode.induct with
  | case1 => rfl
  | case2 a =>
      have h1 : a < 256 := h a (by simp)
      have e1 := b64val_b64chr (a / 4) (by omega)
      have e2 := b64val_b64chr (a % 4 * 16) (by omega)
      simp [base64Encode, base64Decode, e1, e2]
      omega
  | case3 a b =>
      have h1 : a < 256 := h a (by simp)
      have h2 : b < 256 := h b (by simp)
      have e1 := b64val_b64chr (a / 4) (by omega)
      have e2 := b64val_b64chr (a % 4 * 16 + b / 16) (by omega)
      have e3 := b64val_b64chr (b % 16 * 4) (by omega)
      have n3 := b64chr_ne_pad (b % 16 * 4) (by omega)
      simp [base64Encode, base64Decode, n3, e1, e2, e3]
      omega
  | case4 a b c rest ih =>
      have h1 : a < 256 := h a (by simp)
      have h2 : b < 256 := h b (by simp)
      have h3 : c < 256 := h c (by simp)
      have e1 := b64val_b64chr (a / 4) (by omega)
      have e2 := b64val_b64chr (a % 4 * 16 + b / 16) (by omega)
      have e3 := b64val_b64chr (b % 16 * 4 + c / 64) (by omega)
      have e4 := b64val_b64chr (c % 64) (by omega)
      have n3 := b64chr_ne_pad (b % 16 * 4 + c / 64) (by omega)
      have n4 := b64chr_ne_pad (c % 64) (by omega)
      have ih' : base64Decode (base64Encode rest) = rest := by
        refine ih ?_
        intro x hx
        exact h x (by simp [hx])
      simp [base64Encode, base64Decode, n3, n4, e1, e2, e3, e4, ih']
      omega

/-! ### Association-list helper lemmas -/

theorem lookup_setEntry_self {α : Type} (l : List (String × α)) (nm : String) (c : α) :
    (setEntry l nm c).lookup nm = some c := by
  induction l with
  | nil => simp [setEntry]
  | cons kv rest ih =>
      obtain ⟨k, v⟩ := kv
      by_cases h : k = nm
      · subst h
        simp [setEntry]
      · have hbk : (nm == k) = false := beq_eq_false_iff_ne.mpr (Ne.symm h)
        simp [setEntry, h, List.lookup, hbk, ih]

theorem lookup_setEntry_ne {α : Type} (l : List (String × α)) (nm k : String) (c : α)
    (h : nm ≠ k) : (setEntry l nm c).lookup k = l.lookup k := by
  have hbk : (k == nm) = false := beq_eq_false_iff_ne.mpr (Ne.symm h)
  induction l with
  | nil => simp [setEntry, List.lookup, hbk]
  | cons kv rest ih =>
      obtain ⟨k2, v⟩ := kv
      by_cases h2 : k2 = nm
      · subst h2
        simp [setEntry, List.lookup, hbk]
      · simp [setEntry, h2, List.lookup, ih]

/-! ### Claim C6: PKCE field consistency in AuthorizationRequestSchema -/

/-- C6 counterexample: the request supplying code_challenge_method S256
with no code_challenge passes validation, so the claim that validation
rejects a method without a challenge is false on the code. -/
theorem c6_method_without_challenge_accepted :
    c6Request.code_challenge_method = some "S256" ∧ c6Request.code_challenge = none ∧
    validateAuthorizationRequest c6Request = true := by
  refine ⟨rfl, rfl, ?_⟩
  decide

/-- C6 amended: the schema enforces the converse direction only — a
request with a (truthy) code_challenge and no code_challenge_method is
rejected, while a request with a method and no challenge passes
validation whenever its base fields are valid. -/
theorem c6_pkce_presence_direction (r : AuthorizationRequest) :
    (jsTruthy r.code_challenge = true → r.code_challenge_method = none →
      validateAuthorizationRequest r = false)
    ∧ (authRequestBase r = true → r.code_challenge = none →
      validateAuthorizationRequest r = true) := by
  constructor
  · intro h1 h2
    simp [validateAuthorizationRequest, authRequestRefinePkcePresence, h1, h2]
  · intro hb hc
    simp [validateAuthorizationRequest, authRequestRefinePkcePresence,
      authRequestRefineS256Length, hb, hc, jsTruthy]

/-- C6 amended theorem evaluated at concrete requests. -/
theorem c6_pkce_presence_direction_witness :
    validateAuthorizationRequest c6NoMethodRequest = false ∧
    validateAuthorizationRequest c6Request = true :=
  ⟨(c6_pkce_presence_direction c6NoMethodRequest).1 (by decide) rfl,
   (c6_pkce_presence_direction c6Request).2 (by decide) rfl⟩

/-! ### Claim C7: logout redirect requires id_token_hint -/

/-- C7: a logout request carrying post_logout_redirect_uri without an
id_token_hint always fails validation; with a truthy id_token_hint the
refinement passes, and the whole validation passes when the redirect URI
is a valid URL. -/
theorem logout_redirect_requires_hint (r : LogoutRequest) :
    (∀ u, r.post_logout_redirect_uri = some u → r.id_token_hint = none →
      validateLogoutRequest r = false)
    ∧ (jsTruthy r.id_token_hint = true →
        logoutRequestRefine r = true
        ∧ (∀ u, r.post_logout_redirect_uri = some u → isValidUrl u = true →
            validateLogoutRequest r = true)) := by
  constructor
  · intro u hu hh
    by_cases he : u = ""
    · subst he
      have hurl : isValidUrl "" = false := rfl
      simp [validateLogoutRequest, logoutRequestBase, hu, hurl]
    · simp [validateLogoutRequest, logoutRequestRefine, hu, hh, jsTruthy, he]
  · intro hh
    refine ⟨by simp [logoutRequestRefine, hh], ?_⟩
    intro u hu hurl
    simp [validateLogoutRequest, logoutRequestBase, logoutRequestRefine, hu, hurl, hh]

/-- C7 theorem evaluated at concrete logout requests. -/
theorem logout_redirect_requires_hint_witness :
    validateLogoutRequest { post_logout_redirect_uri := some "https://app.test/out" } = false
    ∧ validateLogoutRequest { post_logout_redirect_uri := some "https://app.test/out"
                              id_token_hint := some "tok" } = true :=
  ⟨(logout_redirect_requires_hint
      { post_logout_redirect_uri := some "https://app.test/out" }).1
        "https://app.test/out" rfl rfl,
   ((logout_redirect_requires_hint
      { post_logout_redirect_uri := some "https://app.test/out"
        id_token_hint := some "tok" }).2 (by decide)).2
        "https://app.test/out" rfl (by decide)⟩

/-! ### Claim C10: S256 challenge length constraint -/

/-- C10: with all base fields valid and a non-empty code_challenge
supplied, an S256 request validates exactly when the challenge is 43
characters, while a plain challenge of any length is accepted. -/
theorem s256_challenge_length (r : AuthorizationRequest) (c : String)
    (hch : r.code_challenge = some c) (hne : c ≠ "") (hbase : authRequestBase r = true) :
    (r.code_challenge_method = some "S256" →
      (validateAuthorizationRequest r = true ↔ c.length = 43))
    ∧ (r.code_challenge_method = some "plain" → validateAuthorizationRequest r = true) := by
  constructor
  · intro hm
    simp [validateAuthorizationRequest, authRequestRefinePkcePresence,
      authRequestRefineS256Length, hch, hne, hbase, hm, jsTruthy]
  · intro hm
    simp [validateAuthorizationRequest, authRequestRefinePkcePresence,
      authRequestRefineS256Length, hch, hne, hbase, hm, jsTruthy]

/-- C10 theorem evaluated at a 43-character S256 request and a short
plain request. -/
theorem s256_challenge_length_witness :
    validateAuthorizationRequest sampleS256Request = true ∧
    validateAuthorizationRequest samplePlainRequest = true :=
  ⟨((s256_challenge_length sampleS256Request
      "E9Melhoa2OwvFrEMTJguCHaoeK1t8URWbuGJSstw-cM" rfl (by decide) (by decide)).1
        rfl).mpr (by decide),
   (s256_challenge_length samplePlainRequest "abc" rfl (by decide) (by decide)).2 rfl⟩

/-! ### Claim C5: resolve on an unregistered provider name -/

/-- C5 counterexample: on an initialized registry that does not hold the
queried name, the factory's getConfig throws (models as an error result,
caught only by the route handler), rather than returning a typed
NotFound value. -/
theorem getConfig_unknown_raises_cex :
    UpstreamOidcFactory.getConfig sampleFactoryState "nope" =
      .error "Unknown provider: nope" := rfl

/-- C5 amended: for an unregistered name the factory's getConfig raises
an Unknown provider error while the service variant returns undefined;
for a registered name both return the stored configuration. -/
theorem getConfig_resolution (st : UpstreamOidcFactory.FactoryState) (nm : String)
    (hinit : st.initialized = true) :
    (st.configs.lookup nm = none →
      UpstreamOidcFactory.getConfig st nm = .error ("Unknown provider: " ++ nm)
      ∧ UpstreamOidcService.getConfig st nm = .ok none)
    ∧ (∀ c, st.configs.lookup nm = some c →
      UpstreamOidcFactory.getConfig st nm = .ok c
      ∧ UpstreamOidcService.getConfig st nm = .ok (some c)) := by
  constructor
  · intro h
    constructor
    · simp [UpstreamOidcFactory.getConfig, hinit, h]
    · simp [UpstreamOidcService.getConfig, hinit, h]
  · intro c h
    constructor
    · simp [UpstreamOidcFactory.getConfig, hinit, h]
    · simp [UpstreamOidcService.getConfig, hinit, h]

/-- C5 amended theorem evaluated on the sample registry. -/
theorem getConfig_resolution_witness :
    (UpstreamOidcFactory.getConfig sampleFactoryState "nope" =
        .error "Unknown provider: nope"
      ∧ UpstreamOidcService.getConfig sampleFactoryState "nope" = .ok none)
    ∧ (UpstreamOidcFactory.getConfig sampleFactoryState "acme" = .ok acmeConfig
      ∧ UpstreamOidcService.getConfig sampleFactoryState "acme" = .ok (some acmeConfig)) :=
  ⟨(getConfig_resolution sampleFactoryState "nope" rfl).1 rfl,
   (getConfig_resolution sampleFactoryState "acme" rfl).2 acmeConfig rfl⟩

/-! ### Claim C8: the secret resolver must be ready first -/

/-- C8: calling the factory's startup while LocalKMS is uninitialized
(from an uninitialized registry) throws before touching any state: no
provider is registered and the registry stays uninitialized. -/
theorem initFactory_requires_kms (env : UpstreamEnv) (ps : List ProviderEntry)
    (st : UpstreamOidcFactory.FactoryState)
    (hinit : st.initialized = false) (hkms : env.kms.initialized = false) :
    UpstreamOidcFactory.initFactory env ps st =
      (.error "LocalKMS must be initialized before UpstreamOidcFactory", st)
    ∧ (UpstreamOidcFactory.initFactory env ps st).2.configs = st.configs
    ∧ (UpstreamOidcFactory.initFactory env ps st).2.initialized = false := by
  have h1 : UpstreamOidcFactory.initFactory env ps st =
      (.error "LocalKMS must be initialized before UpstreamOidcFactory", st) := by
    simp [UpstreamOidcFactory.initFactory, hinit, hkms]
  exact ⟨h1, by rw [h1], by rw [h1]; exact hinit⟩

/-- C8 theorem evaluated on the sample environment with the KMS not
initialized. -/
theorem initFactory_requires_kms_witness :
    UpstreamOidcFactory.initFactory sampleEnvNoKms [acmeProvider] emptyFactoryState =
      (.error "LocalKMS must be initialized before UpstreamOidcFactory",
        emptyFactoryState) :=
  (initFactory_requires_kms sampleEnvNoKms [acmeProvider] emptyFactoryState rfl rfl).1

/-! ### Claim C1: what the discovery endpoint serves -/

/-- C1 counterexample: for the acme provider mounted at base path acme
under broker origin https auth.test, the discovery endpoint serves the
upstream provider's cached metadata, whose issuer and token endpoint are
the upstream ones, not the broker's base URL. -/
theorem discovery_serves_upstream_metadata_cex :
    discoveryHandler sampleFactoryState acmeProvider =
      { status := 200, body := .metadata acmeUpstreamMetadata }
    ∧ acmeUpstreamMetadata.issuer ≠ "https://auth.test" ++ providerBasePath acmeProvider
    ∧ acmeUpstreamMetadata.token_endpoint ≠
        ("https://auth.test" ++ providerBasePath acmeProvider) ++ "/token" :=
  ⟨rfl, by decide, by decide⟩

/-- C1 amended: a GET of basePath well-known openid-configuration for a
registered provider returns status 200 with exactly the upstream
provider's cached serverMetadata (so its issuer is the upstream issuer,
not the broker base URL). -/
theorem discovery_serves_upstream_metadata (st : UpstreamOidcFactory.FactoryState)
    (p : ProviderEntry) (cfg : ClientConfig)
    (hinit : st.initialized = true) (hl : st.configs.lookup p.name = some cfg) :
    discoveryHandler st p = { status := 200, body := .metadata cfg.serverMetadata } := by
  simp [discoveryHandler, UpstreamOidcFactory.getConfig, hinit, hl]

/-- C1 amended theorem evaluated on the sample registry. -/
theorem discovery_serves_upstream_metadata_witness :
    discoveryHandler sampleFactoryState acmeProvider =
      { status := 200, body := .metadata acmeConfig.serverMetadata } :=
  discovery_serves_upstream_metadata sampleFactoryState acmeProvider acmeConfig rfl rfl

/-! ### Claim C3: PKCE toward the upstream provider is always S256 -/

theorem mem_optParam {k2 val key : String} {o : Option String}
    (h : (k2, val) ∈ UpstreamOidcService.optParam key o) : k2 = key := by
  cases o with
  | none => simp [UpstreamOidcService.optParam] at h
  | some s =>
      simp only [UpstreamOidcService.optParam] at h
      by_cases hs : s == ""
      · simp [hs] at h
      · simp [hs] at h
        exact h.1

/-- C3: whenever buildAuthorizationUrl succeeds, a supplied (truthy)
PKCE code verifier yields exactly the parameters
code_challenge_method S256 and code_challenge base64url(SHA256(verifier));
and any code_challenge_method parameter in the produced URL has value
S256 — the method plain is never emitted toward the upstream provider. -/
theorem buildAuthorizationUrl_pkce_s256 (sha : String → List Nat)
    (st : UpstreamOidcFactory.FactoryState) (pn ru : String)
    (opts : UpstreamOidcService.AuthUrlOptions) (u : UpstreamOidcService.AuthorizationUrl)
    (h : UpstreamOidcService.buildAuthorizationUrl sha st pn ru opts = .ok u) :
    (∀ v, opts.codeVerifier = some v → v ≠ "" →
      ("code_challenge_method", "S256") ∈ u.params
      ∧ ("code_challenge", calculatePKCECodeChallenge sha v) ∈ u.params)
    ∧ (∀ m, ("code_challenge_method", m) ∈ u.params → m = "S256") := by
  cases hI : st.initialized with
  | false =>
      rw [UpstreamOidcService.buildAuthorizationUrl, hI] at h
      simp at h
  | true =>
      rw [UpstreamOidcService.buildAuthorizationUrl, hI] at h
      cases hc : st.configs.lookup pn with
      | none =>
          rw [hc] at h
          simp at h
      | some cfg =>
          rw [hc] at h
          simp only [Bool.not_true, Bool.false_eq_true, if_false, Except.ok.injEq] at h
          subst h
          constructor
          · intro v hv hvne
            have hvb : (v == "") = false := beq_eq_false_iff_ne.mpr hvne
            constructor
            · exact List.mem_append_right _ (by simp [hv, hvb])
            · exact List.mem_append_right _ (by simp [hv, hvb])
          · intro m hm
            simp only [List.mem_append] at hm
            rcases hm with ((hb | hs) | hn) | hp
            · simp at hb
            · exact absurd (mem_optParam hs) (by decide)
            · exact absurd (mem_optParam hn) (by decide)
            · cases hv : opts.codeVerifier with
              | none => rw [hv] at hp; simp at hp
              | some v =>
                  rw [hv] at hp
                  by_cases hvb : v == ""
                  · simp [hvb] at hp
                  · simp [hvb] at hp
                    exact hp

/-- C3 theorem evaluated on the sample registry with a concrete hash:
the produced URL carries the S256 method and the base64url digest. -/
theorem buildAuthorizationUrl_pkce_s256_witness :
    ∃ u, UpstreamOidcService.buildAuthorizationUrl sampleSha sampleFactoryState "acme"
        "https://broker.test/acme/callback" { codeVerifier := some "verifier-string" } = .ok u
      ∧ ("code_challenge_method", "S256") ∈ u.params
      ∧ ("code_challenge", calculatePKCECodeChallenge sampleSha "verifier-string") ∈ u.params :=
  ⟨_, rfl,
    ((buildAuthorizationUrl_pkce_s256 sampleSha sampleFactoryState "acme"
        "https://broker.test/acme/callback" { codeVerifier := some "verifier-string" } _
        rfl).1 "verifier-string" rfl (by decide)).1,
    ((buildAuthorizationUrl_pkce_s256 sampleSha sampleFactoryState "acme"
        "https://broker.test/acme/callback" { codeVerifier := some "verifier-string" } _
        rfl).1 "verifier-string" rfl (by decide)).2⟩

/-! ### Claim C4: registration failures do not block other providers -/

theorem lookup_registerLoop_notin (env : UpstreamEnv) :
    ∀ (ps : List ProviderEntry) (configs : List (String × ClientConfig)) (nm : String),
      nm ∉ ps.map ProviderEntry.name →
      (UpstreamOidcFactory.registerLoop env ps configs).lookup nm = configs.lookup nm := by
  intro ps
  induction ps with
  | nil => intro configs nm _; rfl
  | cons q rest ih =>
      intro configs nm hnm
      simp only [List.map_cons, List.mem_cons, not_or] at hnm
      obtain ⟨hq, hrest⟩ := hnm
      simp only [UpstreamOidcFactory.registerLoop, List.foldl_cons] at *
      cases hr : UpstreamOidcFactory.registerProvider env q with
      | ok c =>
          exact (ih (setEntry configs q.name c) nm hrest).trans
            (lookup_setEntry_ne configs q.name nm c (fun h => hq h.symm))
      | error e2 =>
          exact ih configs nm hrest

theorem lookup_registerLoop_ok (env : UpstreamEnv) :
    ∀ (ps : List ProviderEntry) (configs : List (String × ClientConfig))
      (p : ProviderEntry) (c : ClientConfig),
      p ∈ ps → UpstreamOidcFactory.registerProvider env p = .ok c →
      (ps.map ProviderEntry.name).Nodup →
      (UpstreamOidcFactory.registerLoop env ps configs).lookup p.name = some c := by
  intro ps
  induction ps with
  | nil => intro configs p c hp; cases hp
  | cons q rest ih =>
      intro configs p c hp hc hnodup
      simp only [List.map_cons, List.nodup_cons] at hnodup
      obtain ⟨hqnotin, hrestnodup⟩ := hnodup
      simp only [UpstreamOidcFactory.registerLoop, List.foldl_cons] at *
      rcases List.mem_cons.mp hp with hpq | hprest
      · subst hpq
        rw [hc]
        exact (lookup_registerLoop_notin env rest (setEntry configs p.name c) p.name
          hqnotin).trans (lookup_setEntry_self configs p.name c)
      · cases hr : UpstreamOidcFactory.registerProvider env q with
        | ok c2 =>
            exact ih (setEntry configs q.name c2) p c hprest hc hrestnodup
        | error e2 =>
            exact ih configs p c hprest hc hrestnodup

theorem lookup_registerLoop_allfail (env : UpstreamEnv) :
    ∀ (ps : List ProviderEntry) (configs : List (String × ClientConfig)) (nm : String),
      (∀ p ∈ ps, p.name = nm →
        ∀ c, UpstreamOidcFactory.registerProvider env p ≠ .ok c) →
      (UpstreamOidcFactory.registerLoop env ps configs).lookup nm = configs.lookup nm := by
  intro ps
  induction ps with
  | nil => intro configs nm _; rfl
  | cons q rest ih =>
      intro configs nm hfail
      simp only [UpstreamOidcFactory.registerLoop, List.foldl_cons] at *
      cases hr : UpstreamOidcFactory.registerProvider env q with
      | ok c =>
          have hqnm : q.name ≠ nm := by
            intro h
            exact hfail q (List.mem_cons_self q rest) h c hr
          exact (ih (setEntry configs q.name c) nm
            (fun p hp h c2 => hfail p (List.mem_cons_of_mem q hp) h c2)).trans
            (lookup_setEntry_ne configs q.name nm c hqnm)
      | error e2 =>
          exact ih configs nm (fun p hp h c2 => hfail p (List.mem_cons_of_mem q hp) h c2)

/-- C4: starting from a fresh registry with the KMS ready, when exactly
one provider's registration fails and every other configured provider's
registration succeeds, startup still completes: the factory ends
initialized, every non-failing provider is registered under its name,
and only the failing provider is absent. -/
theorem initFactory_continues_on_failure (env : UpstreamEnv) (ps : List ProviderEntry)
    (st : UpstreamOidcFactory.FactoryState) (f : ProviderEntry) (e : String)
    (hinit : st.initialized = false) (hkms : env.kms.initialized = true)
    (hempty : st.configs = [])
    (hfilter : ∀ p ∈ ps, UpstreamOidcFactory.oidcFilter p = true)
    (hnodup : (ps.map ProviderEntry.name).Nodup)
    (hf : f ∈ ps) (hferr : UpstreamOidcFactory.registerProvider env f = .error e)
    (hok : ∀ p ∈ ps, p ≠ f → ∃ c, UpstreamOidcFactory.registerProvider env p = .ok c) :
    ∃ st', UpstreamOidcFactory.initFactory env ps st = (.ok (), st')
      ∧ st'.initialized = true
      ∧ (∀ p ∈ ps, p ≠ f →
          ∃ c, UpstreamOidcFactory.registerProvider env p = .ok c
            ∧ st'.configs.lookup p.name = some c)
      ∧ st'.configs.lookup f.name = none := by
  have hfil : ps.filter UpstreamOidcFactory.oidcFilter = ps :=
    List.filter_eq_self.mpr hfilter
  have h1 : UpstreamOidcFactory.initFactory env ps st =
      (.ok (), { configs := UpstreamOidcFactory.registerLoop env ps st.configs
                 initialized := true }) := by
    simp [UpstreamOidcFactory.initFactory, hinit, hkms, hfil]
  refine ⟨_, h1, rfl, ?_, ?_⟩
  · intro p hp hpne
    obtain ⟨c, hc⟩ := hok p hp hpne
    exact ⟨c, hc, lookup_registerLoop_ok env ps st.configs p c hp hc hnodup⟩
  · have hallfail : ∀ p ∈ ps, p.name = f.name →
        ∀ c, UpstreamOidcFactory.registerProvider env p ≠ .ok c := by
      intro p hp hname c hcontra
      have hpf : p = f := List.inj_on_of_nodup_map hnodup hp hf hname
      rw [hpf, hferr] at hcontra
      cases hcontra
    rw [lookup_registerLoop_allfail env ps st.configs f.name hallfail, hempty]
    rfl

/-- C4 theorem evaluated on the sample world: acme registers, the
provider with the missing secret is skipped, startup completes. -/
theorem initFactory_continues_on_failure_witness :
    ∃ st', UpstreamOidcFactory.initFactory sampleEnv [acmeProvider, brokenProvider]
        emptyFactoryState = (.ok (), st')
      ∧ st'.initialized = true
      ∧ (∀ p ∈ [acmeProvider, brokenProvider], p ≠ brokenProvider →
          ∃ c, UpstreamOidcFactory.registerProvider sampleEnv p = .ok c
            ∧ st'.configs.lookup p.name = some c)
      ∧ st'.configs.lookup brokenProvider.name = none :=
  initFactory_continues_on_failure sampleEnv [acmeProvider, brokenProvider] emptyFactoryState
    brokenProvider "Secret not found: missing-secret" rfl rfl rfl (by decide) (by decide)
    (by simp)
    rfl
    (by
      intro p hp hne
      rcases List.mem_cons.mp hp with h | h
      · subst h
        exact ⟨_, rfl⟩
      · rcases List.mem_cons.mp h with h2 | h2
        · exact absurd h2 hne
        · cases h2)

/-! ### Claim C2: authorization codes are consumed at most once -/

theorem consume_marks_consumed (st : SessionStoreState) (now : Nat) (code : String)
    (r : AuthCodeRecord) (hl : st.codes.lookup code = some r) (hc : r.consumed = false)
    (ht : now < r.expiresAt) :
    consumeAuthorizationCode st now code =
      (.success r.subjectClaims r.upstreamTokens,
        { codes := setEntry st.codes code { r with consumed := true } }) := by
  have hexp : ¬(r.expiresAt ≤ now) := by omega
  simp [consumeAuthorizationCode, hl, hc, hexp]

theorem consume_already (st : SessionStoreState) (now : Nat) (code : String)
    (r : AuthCodeRecord) (hl : st.codes.lookup code = some r) (hc : r.consumed = true) :
    consumeAuthorizationCode st now code = (.alreadyConsumed, st) := by
  simp [consumeAuthorizationCode, hl, hc]

theorem consumed_stable (st : SessionStoreState) (code : String) (r : AuthCodeRecord)
    (hl : st.codes.lookup code = some r) (hc : r.consumed = true) (now : Nat) (c2 : String) :
    ∃ r2, ((consumeAuthorizationCode st now c2).2).codes.lookup code = some r2
      ∧ r2.consumed = true := by
  cases h2 : st.codes.lookup c2 with
  | none =>
      refine ⟨r, ?_, hc⟩
      simp [consumeAuthorizationCode, h2, hl]
  | some rr =>
      by_cases hcc : rr.consumed
      · refine ⟨r, ?_, hc⟩
        simp [consumeAuthorizationCode, h2, hcc, hl]
      · by_cases hee : rr.expiresAt ≤ now
        · refine ⟨r, ?_, hc⟩
          simp [consumeAuthorizationCode, h2, hcc, hee, hl]
        · by_cases heq : c2 = code
          · subst heq
            rw [hl] at h2
            cases h2
            exact absurd hc hcc
          · refine ⟨r, ?_, hc⟩
            simp [consumeAuthorizationCode, h2, hcc, hee]
            exact (lookup_setEntry_ne st.codes c2 code _ heq).trans hl

theorem consumed_stable_run (ops : List (Nat × String)) :
    ∀ (st : SessionStoreState) (code : String) (r : AuthCodeRecord),
      st.codes.lookup code = some r → r.consumed = true →
      ∃ r2, ((runConsumes st ops).2).codes.lookup code = some r2 ∧ r2.consumed = true := by
  induction ops with
  | nil => intro st code r hl hc; exact ⟨r, hl, hc⟩
  | cons op rest ih =>
      intro st code r hl hc
      obtain ⟨now, c2⟩ := op
      obtain ⟨r2, hl2, hc2⟩ := consumed_stable st code r hl hc now c2
      obtain ⟨r3, hl3, hc3⟩ := ih _ code r2 hl2 hc2
      exact ⟨r3, hl3, hc3⟩

theorem run_no_success (ts : List Nat) :
    ∀ (st : SessionStoreState) (code : String) (r : AuthCodeRecord),
      st.codes.lookup code = some r → r.consumed = true →
      (runConsumes st (ts.map (fun t => (t, code)))).1 = 0 := by
  induction ts with
  | nil => intro st code r hl hc; rfl
  | cons t rest ih =>
      intro st code r hl hc
      have h1 := consume_already st t code r hl hc
      simp [runConsumes, h1, ConsumeResult.isSuccess]
      exact ih st code r hl hc

/-- C2 (spec-modelled): consuming a fresh unexpired authorization code
succeeds and atomically sets the consumed flag; afterwards every later
consumption of the same code value, across any interleaved sequence of
consume operations, fails with AlreadyConsumed; and a sequence of N
racing consumptions of the same code (modelled as an arbitrary
serialization) yields exactly one success. -/
theorem consumeAuthorizationCode_at_most_once (st : SessionStoreState) (code : String)
    (r : AuthCodeRecord) (t : Nat)
    (hl : st.codes.lookup code = some r) (hc : r.consumed = false) (ht : t < r.expiresAt) :
    (consumeAuthorizationCode st t code).1 = .success r.subjectClaims r.upstreamTokens
    ∧ (∀ ops t2,
        (consumeAuthorizationCode
          ((runConsumes (consumeAuthorizationCode st t code).2 ops)).2 t2 code).1 =
          .alreadyConsumed)
    ∧ (∀ ts : List Nat,
        (runConsumes st ((t :: ts).map (fun x => (x, code)))).1 = 1) := by
  have hstep := consume_marks_consumed st t code r hl hc ht
  have hl1 : ((consumeAuthorizationCode st t code).2).codes.lookup code =
      some { r with consumed := true } := by
    rw [hstep]
    exact lookup_setEntry_self st.codes code _
  refine ⟨by rw [hstep], ?_, ?_⟩
  · intro ops t2
    obtain ⟨r2, hl2, hc2⟩ :=
      consumed_stable_run ops (consumeAuthorizationCode st t code).2 code _ hl1 rfl
    rw [consume_already _ t2 code r2 hl2 hc2]
  · intro ts
    have h0 : (runConsumes (consumeAuthorizationCode st t code).2
        (ts.map (fun x => (x, code)))).1 = 0 :=
      run_no_success ts _ code _ hl1 rfl
    rw [hstep] at h0
    simp [runConsumes, hstep, ConsumeResult.isSuccess, h0]

/-- C2 theorem evaluated on the sample code store: one success at time
0, AlreadyConsumed at time 9 after an interleaved attempt, and exactly
one success among three serialized attempts. -/
theorem consumeAuthorizationCode_at_most_once_witness :
    (consumeAuthorizationCode sampleCodeStore 0 "code-1").1 =
      .success [("sub", "alice")] [("access_token", "at-1")]
    ∧ (consumeAuthorizationCode
        ((runConsumes (consumeAuthorizationCode sampleCodeStore 0 "code-1").2
          [(5, "code-1")])).2 9 "code-1").1 = .alreadyConsumed
    ∧ (runConsumes sampleCodeStore ([0, 1, 2].map (fun x => (x, "code-1")))).1 = 1 :=
  ⟨(consumeAuthorizationCode_at_most_once sampleCodeStore "code-1"
      { subjectClaims := [("sub", "alice")], upstreamTokens := [("access_token", "at-1")]
        createdAt := 0, expiresAt := 60, consumed := false } 0 rfl rfl (by decide)).1,
   (consumeAuthorizationCode_at_most_once sampleCodeStore "code-1"
      { subjectClaims := [("sub", "alice")], upstreamTokens := [("access_token", "at-1")]
        createdAt := 0, expiresAt := 60, consumed := false } 0 rfl rfl (by decide)).2.1
      [(5, "code-1")] 9,
   (consumeAuthorizationCode_at_most_once sampleCodeStore "code-1"
      { subjectClaims := [("sub", "alice")], upstreamTokens := [("access_token", "at-1")]
        createdAt := 0, expiresAt := 60, consumed := false } 0 rfl rfl (by decide)).2.2
      [1, 2]⟩

/-! ### Claim C9: LocalKMS encrypted-value encoding round-trips -/

theorem deserialize_serialize (d : EncryptedData) (h16 : d.iv.length = 16)
    (ht16 : d.authTag.length = 16) (hiv : ∀ x ∈ d.iv, x < 256)
    (htag : ∀ x ∈ d.authTag, x < 256) (hct : ∀ x ∈ d.ciphertext, x < 256) :
    deserializeEncryptedData (serializeEncryptedData d) = .ok d := by
  have hb : ∀ x ∈ d.iv ++ d.authTag ++ d.ciphertext, x < 256 := by
    intro x hx
    simp only [List.mem_append] at hx
    rcases hx with (h | h) | h
    · exact hiv x h
    · exact htag x h
    · exact hct x h
  have hdec : base64Decode (String.mk
      (base64Encode (d.iv ++ d.authTag ++ d.ciphertext))).toList =
      d.iv ++ d.authTag ++ d.ciphertext :=
    base64Decode_base64Encode _ hb
  have hlen : (d.iv ++ d.authTag ++ d.ciphertext).length = 32 + d.ciphertext.length := by
    simp [h16, ht16]
    omega
  have h1 : (d.iv ++ d.authTag ++ d.ciphertext).take 16 = d.iv := by
    rw [List.append_assoc, ← h16]
    exact List.take_left d.iv _
  have h2 : (d.iv ++ d.authTag ++ d.ciphertext).drop 16 = d.authTag ++ d.ciphertext := by
    rw [List.append_assoc, ← h16]
    exact List.drop_left d.iv _
  have h3 : ((d.iv ++ d.authTag ++ d.ciphertext).drop 16).take 16 = d.authTag := by
    rw [h2, ← ht16]
    exact List.take_left d.authTag _
  have h4 : (d.iv ++ d.authTag ++ d.ciphertext).drop 32 = d.ciphertext := by
    have h32 : (d.iv ++ d.authTag ++ d.ciphertext).drop 32 =
        ((d.iv ++ d.authTag ++ d.ciphertext).drop 16).drop 16 := by
      rw [List.drop_drop]
    rw [h32, h2, ← ht16]
    exact List.drop_left d.authTag _
  simp only [deserializeEncryptedData, serializeEncryptedData, hdec, hlen, h1, h3, h4]
  rw [if_neg (by omega)]

/-- C9: deserializing the serialization of encrypted data with a 16-byte
iv and 16-byte auth tag returns its components unchanged; consequently,
for any AEAD satisfying the GCM contract, a loaded master key and a
16-byte iv, decrypting the deserialized serialization of an encryption
recovers the original plaintext. -/
theorem kms_serialization_roundtrip :
    (∀ d : EncryptedData, d.iv.length = 16 → d.authTag.length = 16 →
      (∀ x ∈ d.iv, x < 256) → (∀ x ∈ d.authTag, x < 256) →
      (∀ x ∈ d.ciphertext, x < 256) →
      deserializeEncryptedData (serializeEncryptedData d) = .ok d)
    ∧ (∀ (G : AeadGcm) (k iv : List Nat) (p : String),
        iv.length = 16 → (∀ x ∈ iv, x < 256) →
        (LocalKMS.encrypt G (some k) iv p).bind (fun e =>
          (deserializeEncryptedData (serializeEncryptedData e)).bind
            (LocalKMS.decrypt G (some k))) = .ok p) := by
  constructor
  · exact deserialize_serialize
  · intro G k iv p hlen hb
    have he : LocalKMS.encrypt G (some k) iv p =
        .ok { iv := iv, authTag := (G.enc k iv p).2, ciphertext := (G.enc k iv p).1 } := rfl
    rw [he]
    show (deserializeEncryptedData (serializeEncryptedData
        { iv := iv, authTag := (G.enc k iv p).2, ciphertext := (G.enc k iv p).1 })).bind
      (LocalKMS.decrypt G (some k)) = .ok p
    rw [deserialize_serialize _ hlen (G.tagLen k iv p) hb (G.tagBytes k iv p)
      (G.ctBytes k iv p)]
    show LocalKMS.decrypt G (some k)
      { iv := iv, authTag := (G.enc k iv p).2, ciphertext := (G.enc k iv p).1 } = .ok p
    show G.dec k iv (G.enc k iv p).1 (G.enc k iv p).2 = .ok p
    exact G.dec_enc k iv p

/-- C9 theorem evaluated at a concrete encrypted value and at a
concrete cipher, key, iv and plaintext. -/
theorem kms_serialization_roundtrip_witness :
    deserializeEncryptedData (serializeEncryptedData sampleEncrypted) =
      .ok sampleEncrypted
    ∧ (LocalKMS.encrypt trivialAead (some [7]) (List.replicate 16 0) "hi").bind (fun e =>
        (deserializeEncryptedData (serializeEncryptedData e)).bind
          (LocalKMS.decrypt trivialAead (some [7]))) = .ok "hi" :=
  ⟨kms_serialization_roundtrip.1 sampleEncrypted (by decide) (by decide) (by decide)
      (by decide) (by decide),
   kms_serialization_roundtrip.2 trivialAead [7] (List.replicate 16 0) "hi"
      (by decide) (by decide)⟩

end Passage
